import Mathlib

set_option maxHeartbeats 1000000

/-!
Verification development for the browser client in src/static/gameplay.js.

The development shallowly embeds the simulation view synchronization loop:
genome display formatting, per-organism reconciliation of step responses
into view state, trophic-level population totals, extinction handling, and
the polling controller state machine.

Modelling conventions: JavaScript numbers are modelled as rationals; a gene
value of `none` stands for a value whose parse is not finite; optional
fields of the wire payload are modelled with `Option`; the text content of
the population node is modelled by the small inductive `PopDisplay`
covering the three strings the code can write there.
-/

namespace Phylogen

/-- A gene expression value as seen by the client; `none` models a value
for which `Number.parseFloat` does not yield a finite number. -/
abbrev GeneVal := Option ℚ

/-- The fixed default trait label list (`defaultTraitNames` in the source). -/
def defaultTraitNames : List String := ["Trait 1", "Trait 2", "Trait 3", "Trait 4"]

/-- Fallback used when the supplied trait list has no usable entry:
`defaultTraitNames[index] || Trait (index+1)` in the source. -/
def fallbackTraitName (index : ℕ) : String :=
  match defaultTraitNames[index]? with
  | some t => t
  | none => "Trait " ++ toString (index + 1)

/-- `resolveTraitName` from the source: a supplied, truthy (non-empty)
entry wins, otherwise the fixed defaults, otherwise a synthesized label. -/
def resolveTraitName (traitNames : Option (List String)) (index : ℕ) : String :=
  match traitNames with
  | some ts =>
    match ts[index]? with
    | some t => if t = "" then fallbackTraitName index else t
    | none => fallbackTraitName index
  | none => fallbackTraitName index

/-- `genotypeLabel` from the source: fixed-threshold classification of a
gene value into TT / Tt / tt, with n/a for a non-finite value. -/
def genotypeLabel (value : GeneVal) : String :=
  match value with
  | none => "n/a"
  | some numeric =>
    if numeric ≥ 0.75 then "TT"
    else if numeric > 0.25 ∧ numeric < 0.75 then "Tt"
    else "tt"

/-- The character for the decimal digit `n % 10`. -/
def digitChar (n : ℕ) : Char := Char.ofNat (48 + n % 10)

/-- The three decimal digits of `n` (for `n < 1000`), zero padded; this is
the fractional part produced by `toFixed(3)`. -/
def pad3 (n : ℕ) : String := String.mk [digitChar (n / 100), digitChar (n / 10), digitChar n]

/-- `numeric.toFixed(3)` on a finite value: round half away from zero at
the third decimal, render the integer part, a dot, and three digits. -/
def toFixed3 (q : ℚ) : String :=
  let scaled : ℕ := (⌊|q| * 1000 + 1 / 2⌋).toNat
  let sign := if q < 0 then "-" else ""
  sign ++ toString (scaled / 1000) ++ "." ++ pad3 (scaled % 1000)

/-- `formatGeneValue` from the source. The first argument is the global
`showExactGenes` display-mode flag (true = numeric mode). -/
def formatGeneValue (showExactGenes : Bool) (value : GeneVal)
    (traitNames : Option (List String)) (index : ℕ) : String :=
  let label := resolveTraitName traitNames index
  if showExactGenes then
    label ++ ": " ++ (match value with | some numeric => toFixed3 numeric | none => "n/a")
  else
    label ++ ": " ++ genotypeLabel value

/-- The full genome string assembled in `updateOrganismPanel`: the fixed
prefix, the per-gene strings joined by the fixed separator, and the
n/a form for an empty vector. -/
def formatGenome (showExactGenes : Bool) (genome : List GeneVal)
    (traitNames : Option (List String)) : String :=
  if genome.isEmpty then "Avg genome: n/a"
  else
    "Avg genome: " ++ String.intercalate " | "
      (genome.mapIdx (fun index value => formatGeneValue showExactGenes value traitNames index))

/-- One per-organism delta of a step response (`organisms` entry). -/
structure OrganismDelta where
  id : String
  row : Option ℚ := none
  col : Option ℚ := none
  caughtPrey : Option Bool := none
  cycleStep : Option ℚ := none
  canMove : Option Bool := none
  population : Option ℚ := none
  averageGenome : Option (List GeneVal) := none
  traitNames : Option (List String) := none
  deriving DecidableEq, Repr

/-- The data attributes the code maintains on one sprite element. -/
structure SpriteState where
  row : Option ℚ := none
  col : Option ℚ := none
  caughtPrey : Option Bool := none
  cycleStep : Option ℚ := none
  canMove : Option Bool := none
  deriving DecidableEq, Repr

/-- The body of `updateSprite` from the source, acting on one sprite:
row/col are written only when numerically present, while the three
transient flags are written when present and removed when absent. -/
def updateSpriteData (d : OrganismDelta) (s : SpriteState) : SpriteState :=
  { row := match d.row with | some r => some r | none => s.row
    col := match d.col with | some c => some c | none => s.col
    caughtPrey := d.caughtPrey
    cycleStep := d.cycleStep
    canMove := d.canMove }

/-! ### View state: organism panels, sprites, level totals -/

/-- The text content of the population node of one organism panel: the
code writes either a population count or the extinction label there. -/
inductive PopDisplay where
  | initial
  | count (value : ℚ)
  | extinctLabel
  deriving DecidableEq, Repr

/-- One entry of the `organismPanels` map, as built at page load and
mutated by `updateOrganismPanel` and `markExtinct`. The three `has...Node`
fields record whether the optional child nodes were found at load time;
`hidden` models `element.style.display` being set to none. -/
structure OrganismPanel where
  levelId : Option String
  hasPopulationNode : Bool := true
  hasGenomeNode : Bool := true
  hasCoordsNode : Bool := true
  population : Option ℚ := none
  populationText : PopDisplay := .initial
  genomeText : String := ""
  lastAverageGenome : Option (List GeneVal) := none
  lastTraitNames : Option (List String) := none
  coords : Option (ℚ × ℚ) := none
  hidden : Bool := false
  deriving DecidableEq, Repr

/-- The whole DOM-facing view state: the two lookup maps (modelled as
functions plus their static key lists) and the per-level displayed total
(`none` models the static text present before any refresh). -/
@[ext]
structure ViewState where
  panelIds : List String
  levelIds : List String
  panels : String → Option OrganismPanel
  sprites : String → Option SpriteState
  levelDisplay : String → Option ℚ

/-- The contribution of one panel to the total of the level `levelId`:
its population when it belongs to the level and the population is a
known number, and 0 otherwise. -/
def panelContribution (levelId : String) (p : OrganismPanel) : ℚ :=
  if p.levelId = some levelId then
    match p.population with
    | some q => q
    | none => 0
  else 0

/-- The fully recomputed total of one level, summed over all organism
panels as in `refreshLevelTotals`. -/
def levelTotal (vs : ViewState) (levelId : String) : ℚ :=
  (vs.panelIds.map (fun organismId =>
    match vs.panels organismId with
    | some p => panelContribution levelId p
    | none => 0)).sum

/-- The level display map produced by one refresh pass: every registered
level shows its recomputed total, everything else keeps the old text. -/
def refreshedDisplays (vs : ViewState) (old : String → Option ℚ) : String → Option ℚ :=
  fun levelId => if levelId ∈ vs.levelIds then some (levelTotal vs levelId) else old levelId

/-- `refreshLevelTotals` from the source: recompute every level total
from current member state. -/
def refreshLevelTotals (vs : ViewState) : ViewState :=
  { vs with levelDisplay := refreshedDisplays vs vs.levelDisplay }

/-- `updateSprite` from the source lifted to the view state: the sprite
element is looked up by id and, when present, updated in place. -/
def updateSprite (d : OrganismDelta) (vs : ViewState) : ViewState :=
  { vs with sprites := fun k => if k = d.id then (vs.sprites k).map (updateSpriteData d) else vs.sprites k }

/-- The per-panel mutation performed by `updateOrganismPanel`: population
count and text when numerically present and the node exists, the genome
text and both caches whenever the genome node exists, and the coords text
when both coordinates are numerically present. -/
def updatePanelData (showExactGenes : Bool) (d : OrganismDelta) (p : OrganismPanel) : OrganismPanel :=
  let p1 :=
    match d.population with
    | some q => if p.hasPopulationNode then { p with populationText := .count q, population := some q } else p
    | none => p
  let p2 :=
    if p1.hasGenomeNode then
      { p1 with
        genomeText :=
          match d.averageGenome with
          | some g => formatGenome showExactGenes g d.traitNames
          | none => "Avg genome: n/a"
        lastAverageGenome := d.averageGenome
        lastTraitNames := d.traitNames }
    else p1
  let p3 :=
    if p2.hasCoordsNode then
      match d.row, d.col with
      | some r, some c => { p2 with coords := some (r, c) }
      | _, _ => p2
    else p2
  p3

/-- `updateOrganismPanel` from the source: unknown ids are dropped
silently (and cause no refresh); a known id has its panel mutated and the
level totals are then refreshed. -/
def updateOrganismPanel (showExactGenes : Bool) (d : OrganismDelta) (vs : ViewState) : ViewState :=
  match vs.panels d.id with
  | none => vs
  | some _ =>
    refreshLevelTotals
      { vs with panels := fun k =>
          if k = d.id then (vs.panels k).map (updatePanelData showExactGenes d) else vs.panels k }

/-- The panel mutation performed by `markExtinct`: population forced to 0,
the population text replaced by the extinction label when the node exists,
and the panel element hidden. -/
def markExtinctPanel (p : OrganismPanel) : OrganismPanel :=
  { p with population := some 0
           populationText := if p.hasPopulationNode then .extinctLabel else p.populationText
           hidden := true }

/-- `markExtinct` from the source: mutate the panel when known and remove
the sprite element from the document when present. -/
def markExtinct (organismId : String) (vs : ViewState) : ViewState :=
  { vs with
    panels := fun k => if k = organismId then (vs.panels k).map markExtinctPanel else vs.panels k
    sprites := fun k => if k = organismId then none else vs.sprites k }

/-- One step response as consumed by the success handler, with the
destructuring defaults already applied (missing or non-array fields
become the empty list, a missing cycle index becomes null). -/
structure StepResult where
  organisms : List OrganismDelta := []
  cycleComplete : Bool := false
  cycleSummary : List String := []
  cycleIndex : Option ℤ := none
  extinct : List String := []
  deriving DecidableEq, Repr

/-- The per-delta part of the success handler: `updateSprite` then
`updateOrganismPanel`. -/
def applyDelta (showExactGenes : Bool) (d : OrganismDelta) (vs : ViewState) : ViewState :=
  updateOrganismPanel showExactGenes d (updateSprite d vs)

/-- The loop over `organisms` in the success handler. -/
def applyOrganisms (showExactGenes : Bool) (ds : List OrganismDelta) (vs : ViewState) : ViewState :=
  ds.foldl (fun vs d => applyDelta showExactGenes d vs) vs

/-- The loop over `extinct` in the success handler. -/
def applyExtinct (ids : List String) (vs : ViewState) : ViewState :=
  ids.foldl (fun vs i => markExtinct i vs) vs

/-- The whole view-state effect of one step response: apply every
organism delta, then, when the extinct list is nonempty, mark every
extinct id and refresh the level totals once more. -/
def applyStepToView (showExactGenes : Bool) (res : StepResult) (vs : ViewState) : ViewState :=
  let vs1 := applyOrganisms showExactGenes res.organisms vs
  if res.extinct.isEmpty then vs1 else refreshLevelTotals (applyExtinct res.extinct vs1)

/-- Successive application of a list of step responses. -/
def applyStepList (showExactGenes : Bool) (ress : List StepResult) (vs : ViewState) : ViewState :=
  ress.foldl (fun vs res => applyStepToView showExactGenes res vs) vs

/-- The level total as the specification claim words it: the sum of
`population` over the members of the level whose population is a known
number and whose id has not appeared in any `extinct` set so far. -/
def specLevelTotal (extinctSoFar : List String) (vs : ViewState) (levelId : String) : ℚ :=
  (vs.panelIds.map (fun organismId =>
    match vs.panels organismId with
    | some p => if organismId ∈ extinctSoFar then 0 else panelContribution levelId p
    | none => 0)).sum

/-! ### Masked-write decomposition of the per-entry mutations

Every mutation the reconciliation performs on one panel or one sprite
either overwrites a field with a value computed from the delta alone or
leaves it unchanged. The two `...Write` records make that explicit; they
drive the idempotence and invariance proofs. -/

/-- Last-writer-wins union of two optional writes. -/
def oor {α : Type} (a b : Option α) : Option α :=
  match a with
  | some x => some x
  | none => b

/-- The fields of one organism panel a reconciliation op may overwrite. -/
structure PanelWrite where
  population : Option (Option ℚ) := none
  populationText : Option PopDisplay := none
  genomeText : Option String := none
  lastAverageGenome : Option (Option (List GeneVal)) := none
  lastTraitNames : Option (Option (List String)) := none
  coords : Option (Option (ℚ × ℚ)) := none
  hidden : Option Bool := none
  deriving DecidableEq, Repr

/-- Apply a masked write to a panel; fields not written are unchanged and
the static fields (level, node handles) are never written. -/
def PanelWrite.apply (w : PanelWrite) (p : OrganismPanel) : OrganismPanel :=
  { p with
    population := w.population.getD p.population
    populationText := w.populationText.getD p.populationText
    genomeText := w.genomeText.getD p.genomeText
    lastAverageGenome := w.lastAverageGenome.getD p.lastAverageGenome
    lastTraitNames := w.lastTraitNames.getD p.lastTraitNames
    coords := w.coords.getD p.coords
    hidden := w.hidden.getD p.hidden }

/-- `w2.after w1` is the combined write of `w1` then `w2`. -/
def PanelWrite.after (w2 w1 : PanelWrite) : PanelWrite :=
  { population := oor w2.population w1.population
    populationText := oor w2.populationText w1.populationText
    genomeText := oor w2.genomeText w1.genomeText
    lastAverageGenome := oor w2.lastAverageGenome w1.lastAverageGenome
    lastTraitNames := oor w2.lastTraitNames w1.lastTraitNames
    coords := oor w2.coords w1.coords
    hidden := oor w2.hidden w1.hidden }

/-- The fields of one sprite a reconciliation op may overwrite. -/
structure SpriteWrite where
  row : Option (Option ℚ) := none
  col : Option (Option ℚ) := none
  caughtPrey : Option (Option Bool) := none
  cycleStep : Option (Option ℚ) := none
  canMove : Option (Option Bool) := none
  deriving DecidableEq, Repr

/-- Apply a masked write to a sprite. -/
def SpriteWrite.apply (w : SpriteWrite) (s : SpriteState) : SpriteState :=
  { row := w.row.getD s.row
    col := w.col.getD s.col
    caughtPrey := w.caughtPrey.getD s.caughtPrey
    cycleStep := w.cycleStep.getD s.cycleStep
    canMove := w.canMove.getD s.canMove }

/-- `w2.after w1` is the combined write of `w1` then `w2`. -/
def SpriteWrite.after (w2 w1 : SpriteWrite) : SpriteWrite :=
  { row := oor w2.row w1.row
    col := oor w2.col w1.col
    caughtPrey := oor w2.caughtPrey w1.caughtPrey
    cycleStep := oor w2.cycleStep w1.cycleStep
    canMove := oor w2.canMove w1.canMove }

/-- The write `updatePanelData` performs given the static node handles of
the target panel. -/
def panelDeltaWrite (showExactGenes : Bool) (hp hg hc : Bool) (d : OrganismDelta) : PanelWrite :=
  { population := match d.population with
      | some q => if hp then some (some q) else none
      | none => none
    populationText := match d.population with
      | some q => if hp then some (.count q) else none
      | none => none
    genomeText := if hg then some (match d.averageGenome with
        | some g => formatGenome showExactGenes g d.traitNames
        | none => "Avg genome: n/a") else none
    lastAverageGenome := if hg then some d.averageGenome else none
    lastTraitNames := if hg then some d.traitNames else none
    coords := if hc then (match d.row, d.col with
        | some r, some c => some (some (r, c))
        | _, _ => none) else none
    hidden := none }

/-- The write `markExtinctPanel` performs. -/
def panelExtinctWrite (hp : Bool) : PanelWrite :=
  { population := some (some 0)
    populationText := if hp then some .extinctLabel else none
    hidden := some true }

/-- The write `updateSpriteData` performs. -/
def spriteDeltaWrite (d : OrganismDelta) : SpriteWrite :=
  { row := d.row.map some
    col := d.col.map some
    caughtPrey := some d.caughtPrey
    cycleStep := some d.cycleStep
    canMove := some d.canMove }

/-- One atomic reconciliation op of a step response. -/
inductive StepOp where
  | delta (d : OrganismDelta)
  | gone (i : String)
  deriving DecidableEq, Repr

/-- The op sequence of one step response: all organism deltas, then all
extinction notices. -/
def stepOps (res : StepResult) : List StepOp :=
  res.organisms.map .delta ++ res.extinct.map .gone

/-- The effect of one op on the panel entry stored under key k. -/
def panelOpAt (showExactGenes : Bool) (op : StepOp) (k : String)
    (v : Option OrganismPanel) : Option OrganismPanel :=
  match op with
  | .delta d => if k = d.id then v.map (updatePanelData showExactGenes d) else v
  | .gone i => if k = i then v.map markExtinctPanel else v

/-- The effect of one op on the sprite entry stored under key k. -/
def spriteOpAt (op : StepOp) (k : String) (v : Option SpriteState) : Option SpriteState :=
  match op with
  | .delta d => if k = d.id then v.map (updateSpriteData d) else v
  | .gone i => if k = i then none else v

/-- The combined panel write a whole op sequence performs on key k (given
the static node handles of the panel stored there). -/
def panelWritesFor (showExactGenes : Bool) (hp hg hc : Bool) (k : String) : List StepOp → PanelWrite
  | [] => {}
  | op :: ops =>
    let w := match op with
      | .delta d => if k = d.id then panelDeltaWrite showExactGenes hp hg hc d else {}
      | .gone i => if k = i then panelExtinctWrite hp else {}
    (panelWritesFor showExactGenes hp hg hc k ops).after w

/-- The combined sprite write a kill-free op sequence performs on key k. -/
def spriteWritesFor (k : String) : List StepOp → SpriteWrite
  | [] => {}
  | op :: ops =>
    let w := match op with
      | .delta d => if k = d.id then spriteDeltaWrite d else {}
      | .gone _ => {}
    (spriteWritesFor k ops).after w

/-- Whether an op sequence removes the sprite stored under key k. -/
def killsSprite (k : String) (ops : List StepOp) : Prop :=
  StepOp.gone k ∈ ops

instance (k : String) (ops : List StepOp) : Decidable (killsSprite k ops) :=
  inferInstanceAs (Decidable (StepOp.gone k ∈ ops))

/-- The consistency property of the level displays: every registered
level shows exactly the fully recomputed total of its member panels. -/
def TotalsInvariant (vs : ViewState) : Prop :=
  ∀ levelId ∈ vs.levelIds, vs.levelDisplay levelId = some (levelTotal vs levelId)

/-! ### Concrete states used by counterexamples and witnesses -/

/-- A freshly registered organism panel for level L. -/
def panelA : OrganismPanel := { levelId := some "L" }

/-- A freshly registered sprite. -/
def spriteA : SpriteState := {}

/-- A small page with one level L holding one organism a. -/
def vs0 : ViewState :=
  { panelIds := ["a"]
    levelIds := ["L"]
    panels := fun k => if k = "a" then some panelA else none
    sprites := fun k => if k = "a" then some spriteA else none
    levelDisplay := fun _ => none }

/-- The small page with the level display already showing its total. -/
def vsDisplayed : ViewState :=
  { vs0 with levelDisplay := fun k => if k = "L" then some 0 else none }

/-- A delta carrying an empty genome array and a trait name list. -/
def deltaEmptyGenome : OrganismDelta :=
  { id := "a", averageGenome := some [], traitNames := some ["X"] }

/-- A step response whose extinct set is exactly organism a. -/
def resExtinctA : StepResult := { extinct := ["a"] }

/-- A later step response carrying a population delta for organism a. -/
def resRepopA : StepResult := { organisms := [{ id := "a", population := some 7 }] }

/-! ### The polling controller

The module state of the gameplay script together with the observable
effects (requests issued, persistence calls, emitted events, logged
errors) and the cooperative event loop (pending fetches and timeouts).
Each AbortController is identified by a number; `aborted` collects the
ids whose abort method has been called. -/

/-- The fixed delay between steps (`stepInterval` in the source). -/
def stepInterval : ℕ := 800

/-- The controller state plus its observable effect log. -/
structure SimState where
  running : Bool
  currentController : Option ℕ
  nextControllerId : ℕ
  aborted : List ℕ
  pendingRequests : List ℕ
  pendingTimeouts : List ℕ
  showExactGenes : Bool
  view : ViewState
  stepsIssued : ℕ
  persistCalls : List (Option ℤ × List String × List OrganismDelta)
  saveRequests : List (ℤ × List String × List OrganismDelta)
  events : List (Option ℤ × List String)
  errorsLogged : ℕ

/-- The outcome of one step fetch: a successful response with a parsed
JSON body (null or a step result), or a failure (non-2xx status or a
transport error, both of which throw into the catch handler). -/
inductive StepOutcome where
  | success (data : Option StepResult)
  | failure
  deriving DecidableEq, Repr

/-- `performStep` from the source up to its first suspension point: bail
out when not running, otherwise create a fresh controller, remember it as
the current one, and issue the step fetch. -/
def performStep (s : SimState) : SimState :=
  if s.running then
    { s with currentController := some s.nextControllerId
             nextControllerId := s.nextControllerId + 1
             pendingRequests := s.pendingRequests ++ [s.nextControllerId]
             stepsIssued := s.stepsIssued + 1 }
  else s

/-- `stopSimulation` from the source: clear the running flag and, unless
the abort option is disabled, abort the currently tracked controller. -/
def stopSimulation (abort : Bool) (s : SimState) : SimState :=
  let s1 := { s with running := false }
  if abort then
    match s1.currentController with
    | some id => { s1 with aborted := id :: s1.aborted }
    | none => s1
  else s1

/-- `startSimulation` from the source: a no-op while already running,
otherwise set the running flag and perform a step at once. -/
def startSimulation (s : SimState) : SimState :=
  if s.running then s else performStep { s with running := true }

/-- The click handler of the start button: toggle between stopping (with
abort) and starting. -/
def toggleButton (s : SimState) : SimState :=
  if s.running then stopSimulation true s else startSimulation s

/-- `persistState` from the source: record the invocation, and issue the
save request only when the cycle index is neither null nor undefined. -/
def persistState (cycle : Option ℤ) (summary : List String)
    (organisms : List OrganismDelta) (s : SimState) : SimState :=
  let s1 := { s with persistCalls := s.persistCalls ++ [(cycle, summary, organisms)] }
  match cycle with
  | none => s1
  | some c => { s1 with saveRequests := s1.saveRequests ++ [(c, summary, organisms)] }

/-- The two chained then handlers of the step fetch on a successful,
non-aborted response: a null body is ignored; otherwise the view is
reconciled and, when the cycle is complete, the loop is stopped without
aborting, persistence is invoked, and the completion event is emitted. -/
def runThenChain (data : Option StepResult) (s : SimState) : SimState :=
  match data with
  | none => s
  | some res =>
    let s1 := { s with view := applyStepToView s.showExactGenes res s.view }
    if res.cycleComplete then
      let s2 := stopSimulation false s1
      let s3 := persistState res.cycleIndex res.cycleSummary res.organisms s2
      { s3 with events := s3.events ++ [(res.cycleIndex, res.cycleSummary)] }
    else s1

/-- The catch handler: log the error and stop the simulation (with the
default abort behaviour). -/
def runCatch (s : SimState) : SimState :=
  stopSimulation true { s with errorsLogged := s.errorsLogged + 1 }

/-- The finally handler for the request issued with controller `id`:
forget the controller when it is still the tracked one, and schedule the
next step when still running and this request was never aborted. -/
def runFinally (id : ℕ) (s : SimState) : SimState :=
  let s1 := if s.currentController = some id then { s with currentController := none } else s
  if s1.running ∧ id ∉ s1.aborted then
    { s1 with pendingTimeouts := s1.pendingTimeouts ++ [stepInterval] }
  else s1

/-- Settlement of the step fetch issued with controller `id`: an aborted
fetch rejects regardless of the server outcome, a failure rejects, and a
successful response runs the then chain; the finally handler always runs
last. -/
def resolveStep (id : ℕ) (o : StepOutcome) (s : SimState) : SimState :=
  let s0 := { s with pendingRequests := s.pendingRequests.erase id }
  let s1 :=
    if id ∈ s0.aborted then runCatch s0
    else
      match o with
      | .success data => runThenChain data s0
      | .failure => runCatch s0
  runFinally id s1

/-- The autonomous event-loop steps: a pending timeout fires and calls
`performStep`, or a pending step fetch settles with some outcome. User
clicks are deliberately not included: these are the events the system
performs on its own. -/
inductive AutoStep : SimState → SimState → Prop where
  | timeout (s : SimState) (delay : ℕ) (h : delay ∈ s.pendingTimeouts) :
      AutoStep s (performStep { s with pendingTimeouts := s.pendingTimeouts.erase delay })
  | settle (s : SimState) (id : ℕ) (o : StepOutcome) (h : id ∈ s.pendingRequests) :
      AutoStep s (resolveStep id o s)

/-- Reflexive-transitive closure of the autonomous event-loop steps. -/
def AutoReachable : SimState → SimState → Prop :=
  Relation.ReflTransGen AutoStep

/-- A controller state with exactly one request in flight, tracked and
not aborted, and no pending timeout: the steady in-flight state of a run. -/
def WfInFlight (s : SimState) (id : ℕ) : Prop :=
  s.running = true ∧ s.currentController = some id ∧ id ∉ s.aborted ∧
    s.pendingRequests = [id] ∧ s.pendingTimeouts = []

/-- A concrete in-flight controller state over the small page `vs0`. -/
def sInFlight : SimState :=
  { running := true
    currentController := some 0
    nextControllerId := 1
    aborted := []
    pendingRequests := [0]
    pendingTimeouts := []
    showExactGenes := false
    view := vs0
    stepsIssued := 1
    persistCalls := []
    saveRequests := []
    events := []
    errorsLogged := 0 }

/-- A concrete cycle-completing step response. -/
def resComplete : StepResult :=
  { organisms := [{ id := "a", population := some 3 }]
    cycleComplete := true
    cycleSummary := ["summary"]
    cycleIndex := some 2 }

/-! ### Theorems -/


/-! #### Generic helpers -/

theorem foldl_preserve {α β : Type} (P : β → Prop) (f : α → β → β)
    (h : ∀ x b, P b → P (f x b)) :
    ∀ (l : List α) (b : β), P b → P (l.foldl (fun b x => f x b) b) := by
  intro l
  induction l with
  | nil => exact fun b hb => hb
  | cons x xs ih => exact fun b hb => ih _ (h x b hb)

/-! #### Field effects of the elementary view mutations -/

theorem refreshLevelTotals_panels (vs : ViewState) :
    (refreshLevelTotals vs).panels = vs.panels := rfl

theorem refreshLevelTotals_sprites (vs : ViewState) :
    (refreshLevelTotals vs).sprites = vs.sprites := rfl

theorem updateSprite_panels (d : OrganismDelta) (vs : ViewState) :
    (updateSprite d vs).panels = vs.panels := rfl

theorem updateSprite_levelDisplay (d : OrganismDelta) (vs : ViewState) :
    (updateSprite d vs).levelDisplay = vs.levelDisplay := rfl

theorem updateOrganismPanel_sprites (se : Bool) (d : OrganismDelta) (vs : ViewState) :
    (updateOrganismPanel se d vs).sprites = vs.sprites := by
  unfold updateOrganismPanel
  split <;> rfl

theorem updateOrganismPanel_panels (se : Bool) (d : OrganismDelta) (vs : ViewState) (k : String) :
    (updateOrganismPanel se d vs).panels k =
      if k = d.id then (vs.panels k).map (updatePanelData se d) else vs.panels k := by
  unfold updateOrganismPanel
  cases hv : vs.panels d.id with
  | none =>
    by_cases hk : k = d.id
    · subst hk; simp [hv]
    · simp [hk]
  | some p => rfl

theorem markExtinct_panels (i : String) (vs : ViewState) (k : String) :
    (markExtinct i vs).panels k =
      if k = i then (vs.panels k).map markExtinctPanel else vs.panels k := rfl

theorem markExtinct_sprites (i : String) (vs : ViewState) (k : String) :
    (markExtinct i vs).sprites k = if k = i then none else vs.sprites k := rfl

theorem markExtinct_levelDisplay (i : String) (vs : ViewState) :
    (markExtinct i vs).levelDisplay = vs.levelDisplay := rfl

theorem applyDelta_panels (se : Bool) (d : OrganismDelta) (vs : ViewState) (k : String) :
    (applyDelta se d vs).panels k =
      if k = d.id then (vs.panels k).map (updatePanelData se d) else vs.panels k := by
  unfold applyDelta
  rw [updateOrganismPanel_panels]
  rfl

theorem applyDelta_sprites (se : Bool) (d : OrganismDelta) (vs : ViewState) (k : String) :
    (applyDelta se d vs).sprites k =
      if k = d.id then (vs.sprites k).map (updateSpriteData d) else vs.sprites k := by
  unfold applyDelta
  rw [updateOrganismPanel_sprites]
  rfl

/-! #### Static identifier lists are never touched -/

theorem applyDelta_ids (se : Bool) (d : OrganismDelta) (vs : ViewState) :
    (applyDelta se d vs).panelIds = vs.panelIds ∧ (applyDelta se d vs).levelIds = vs.levelIds := by
  unfold applyDelta updateOrganismPanel
  split <;> exact ⟨rfl, rfl⟩

theorem applyStepToView_ids (se : Bool) (res : StepResult) (vs : ViewState) :
    (applyStepToView se res vs).panelIds = vs.panelIds ∧
      (applyStepToView se res vs).levelIds = vs.levelIds := by
  unfold applyStepToView
  have horg : ∀ (ds : List OrganismDelta) (w : ViewState),
      (applyOrganisms se ds w).panelIds = w.panelIds ∧
        (applyOrganisms se ds w).levelIds = w.levelIds := by
    intro ds
    induction ds with
    | nil => exact fun w => ⟨rfl, rfl⟩
    | cons d ds ih =>
      intro w
      have h1 := applyDelta_ids se d w
      have h2 := ih (applyDelta se d w)
      exact ⟨h2.1.trans h1.1, h2.2.trans h1.2⟩
  have hext : ∀ (ids : List String) (w : ViewState),
      (applyExtinct ids w).panelIds = w.panelIds ∧ (applyExtinct ids w).levelIds = w.levelIds := by
    intro ids
    induction ids with
    | nil => exact fun w => ⟨rfl, rfl⟩
    | cons i ids ih =>
      intro w
      exact ⟨(ih (markExtinct i w)).1, (ih (markExtinct i w)).2⟩
  split
  · exact horg res.organisms vs
  · have h1 := horg res.organisms vs
    have h2 := hext res.extinct (applyOrganisms se res.organisms vs)
    exact ⟨h2.1.trans h1.1, h2.2.trans h1.2⟩

/-! #### Sprite removal and panel hiding are permanent (claim C1) -/

theorem applyStepToView_sprites_none (se : Bool) (res : StepResult) {vs : ViewState} {oid : String}
    (h : vs.sprites oid = none) : (applyStepToView se res vs).sprites oid = none := by
  unfold applyStepToView
  have horg : ∀ (ds : List OrganismDelta) (w : ViewState), w.sprites oid = none →
      (applyOrganisms se ds w).sprites oid = none := by
    intro ds
    induction ds with
    | nil => exact fun w hw => hw
    | cons d ds ih =>
      intro w hw
      refine ih _ ?_
      rw [applyDelta_sprites, hw]
      simp
  have hext : ∀ (ids : List String) (w : ViewState), w.sprites oid = none →
      (applyExtinct ids w).sprites oid = none := by
    intro ids
    induction ids with
    | nil => exact fun w hw => hw
    | cons i ids ih =>
      intro w hw
      refine ih _ ?_
      rw [markExtinct_sprites, hw]
      simp
  split
  · exact horg res.organisms vs h
  · rw [refreshLevelTotals_sprites]
    exact hext res.extinct _ (horg res.organisms vs h)

theorem updatePanelData_hidden (se : Bool) (d : OrganismDelta) (p : OrganismPanel) :
    (updatePanelData se d p).hidden = p.hidden := by
  unfold updatePanelData
  cases d.population <;> cases d.row <;> cases d.col <;> dsimp only <;> split_ifs <;> rfl

theorem markExtinctPanel_hidden (p : OrganismPanel) : (markExtinctPanel p).hidden = true := rfl

theorem applyStepToView_hidden (se : Bool) (res : StepResult) {vs : ViewState} {oid : String}
    (h : ∀ p, vs.panels oid = some p → p.hidden = true) :
    ∀ p, (applyStepToView se res vs).panels oid = some p → p.hidden = true := by
  unfold applyStepToView
  have horg : ∀ (ds : List OrganismDelta) (w : ViewState),
      (∀ p, w.panels oid = some p → p.hidden = true) →
      ∀ p, (applyOrganisms se ds w).panels oid = some p → p.hidden = true := by
    intro ds
    induction ds with
    | nil => exact fun w hw => hw
    | cons d ds ih =>
      intro w hw
      refine ih _ ?_
      intro p hp
      rw [applyDelta_panels] at hp
      by_cases hk : oid = d.id
      · rw [if_pos hk] at hp
        cases hv : w.panels oid with
        | none => rw [hv] at hp; simp at hp
        | some p0 =>
          rw [hv] at hp
          simp only [Option.map_some', Option.some.injEq] at hp
          rw [← hp, updatePanelData_hidden]
          exact hw p0 hv
      · rw [if_neg hk] at hp
        exact hw p hp
  have hext : ∀ (ids : List String) (w : ViewState),
      (∀ p, w.panels oid = some p → p.hidden = true) →
      ∀ p, (applyExtinct ids w).panels oid = some p → p.hidden = true := by
    intro ids
    induction ids with
    | nil => exact fun w hw => hw
    | cons i ids ih =>
      intro w hw
      refine ih _ ?_
      intro p hp
      rw [markExtinct_panels] at hp
      by_cases hk : oid = i
      · rw [if_pos hk] at hp
        cases hv : w.panels oid with
        | none => rw [hv] at hp; simp at hp
        | some p0 =>
          rw [hv] at hp
          simp only [Option.map_some', Option.some.injEq] at hp
          rw [← hp]
          rfl
      · rw [if_neg hk] at hp
        exact hw p hp
  split
  · exact horg res.organisms vs h
  · intro p hp
    rw [refreshLevelTotals_panels] at hp
    exact hext res.extinct _ (horg res.organisms vs h) p hp

theorem applyExtinct_member_sprites {oid : String} :
    ∀ (ids : List String) (vs : ViewState), oid ∈ ids →
      (applyExtinct ids vs).sprites oid = none := by
  intro ids
  induction ids with
  | nil => intro vs h; cases h
  | cons i ids ih =>
    intro vs h
    by_cases hmem : oid ∈ ids
    · exact ih _ hmem
    · have hoi : oid = i := by
        rcases List.mem_cons.mp h with h1 | h2
        · exact h1
        · exact absurd h2 hmem
      have hbase : (markExtinct i vs).sprites oid = none := by
        rw [markExtinct_sprites, if_pos hoi]
      have hpres : ∀ (ids2 : List String) (w : ViewState), w.sprites oid = none →
          (applyExtinct ids2 w).sprites oid = none := by
        intro ids2
        induction ids2 with
        | nil => exact fun w hw => hw
        | cons j ids2 ih2 =>
          intro w hw
          refine ih2 _ ?_
          rw [markExtinct_sprites, hw]
          simp
      exact hpres ids _ hbase

theorem applyExtinct_member_hidden {oid : String} :
    ∀ (ids : List String) (vs : ViewState), oid ∈ ids →
      ∀ p, (applyExtinct ids vs).panels oid = some p → p.hidden = true := by
  intro ids
  induction ids with
  | nil => intro vs h; cases h
  | cons i ids ih =>
    intro vs h
    by_cases hmem : oid ∈ ids
    · exact ih _ hmem
    · have hoi : oid = i := by
        rcases List.mem_cons.mp h with h1 | h2
        · exact h1
        · exact absurd h2 hmem
      have hbase : ∀ p, (markExtinct i vs).panels oid = some p → p.hidden = true := by
        intro p hp
        rw [markExtinct_panels, if_pos hoi] at hp
        cases hv : vs.panels oid with
        | none => rw [hv] at hp; simp at hp
        | some p0 =>
          rw [hv] at hp
          simp only [Option.map_some', Option.some.injEq] at hp
          rw [← hp]
          rfl
      have hpres : ∀ (ids2 : List String) (w : ViewState),
          (∀ p, w.panels oid = some p → p.hidden = true) →
          ∀ p, (applyExtinct ids2 w).panels oid = some p → p.hidden = true := by
        intro ids2
        induction ids2 with
        | nil => exact fun w hw => hw
        | cons j ids2 ih2 =>
          intro w hw
          refine ih2 _ ?_
          intro p hp
          rw [markExtinct_panels] at hp
          by_cases hk : oid = j
          · rw [if_pos hk] at hp
            cases hv : w.panels oid with
            | none => rw [hv] at hp; simp at hp
            | some p0 =>
              rw [hv] at hp
              simp only [Option.map_some', Option.some.injEq] at hp
              rw [← hp]
              rfl
          · rw [if_neg hk] at hp
            exact hw p hp
      exact hpres ids _ hbase

/-- C1 counterexample: the claim that every delta applied after an
extinction leaves the population forced to 0 is false: organism a goes
extinct in the first step, yet the delta for a in the second step sets its
stored population to 7. -/
theorem extinction_population_resurrected :
    ((applyStepList false [resExtinctA, resRepopA] vs0).panels "a").map OrganismPanel.population =
      some (some 7) ∧ some (7 : ℚ) ≠ some (0 : ℚ) := by
  constructor
  · decide
  · norm_num

/-- C1 (amended): once an id appears in the extinct set of a step result, its
sprite is removed and stays removed, and its panel is hidden and stays
hidden, for every sequence of subsequently applied step results; the
stored population, however, is not forced to remain 0 (see the
counterexample). -/
theorem extinction_removes_sprite_and_hides_panel_permanently
    (se : Bool) (vs : ViewState) (res : StepResult) (rest : List StepResult) (oid : String)
    (h : oid ∈ res.extinct) :
    (applyStepList se rest (applyStepToView se res vs)).sprites oid = none ∧
      ∀ p, (applyStepList se rest (applyStepToView se res vs)).panels oid = some p →
        p.hidden = true := by
  have hne : res.extinct.isEmpty = false := by
    cases hres : res.extinct with
    | nil => rw [hres] at h; cases h
    | cons a l => rfl
  have hstep : (applyStepToView se res vs).sprites oid = none ∧
      ∀ p, (applyStepToView se res vs).panels oid = some p → p.hidden = true := by
    unfold applyStepToView
    simp only [hne, Bool.false_eq_true, if_false]
    refine ⟨?_, ?_⟩
    · rw [refreshLevelTotals_sprites]
      exact applyExtinct_member_sprites res.extinct _ h
    · intro p hp
      rw [refreshLevelTotals_panels] at hp
      exact applyExtinct_member_hidden res.extinct _ h p hp
  exact foldl_preserve
    (fun w => w.sprites oid = none ∧ ∀ p, w.panels oid = some p → p.hidden = true)
    (fun r w => applyStepToView se r w)
    (fun r w hw => ⟨applyStepToView_sprites_none se r hw.1, applyStepToView_hidden se r hw.2⟩)
    rest _ hstep

/-- Closed witness for the amended C1 at the concrete scenario of the
counterexample. -/
theorem extinction_removes_sprite_and_hides_panel_permanently_witness :
    (applyStepList false [resRepopA] (applyStepToView false resExtinctA vs0)).sprites "a" = none ∧
      ∀ p, (applyStepList false [resRepopA]
          (applyStepToView false resExtinctA vs0)).panels "a" = some p → p.hidden = true :=
  extinction_removes_sprite_and_hides_panel_permanently false vs0 resExtinctA [resRepopA] "a"
    (by decide)

/-! #### Level totals (claim C2) -/

theorem levelTotal_congr {vs1 vs2 : ViewState} (hp : vs1.panels = vs2.panels)
    (hi : vs1.panelIds = vs2.panelIds) (levelId : String) :
    levelTotal vs1 levelId = levelTotal vs2 levelId := by
  unfold levelTotal
  rw [hp, hi]

theorem refreshLevelTotals_invariant (vs : ViewState) :
    TotalsInvariant (refreshLevelTotals vs) := by
  intro lid hmem
  have hmem2 : lid ∈ vs.levelIds := hmem
  show refreshedDisplays vs vs.levelDisplay lid = _
  unfold refreshedDisplays
  rw [if_pos hmem2]
  exact congrArg some (levelTotal_congr rfl rfl lid)

theorem updateSprite_invariant (d : OrganismDelta) (vs : ViewState) (h : TotalsInvariant vs) :
    TotalsInvariant (updateSprite d vs) := by
  intro lid hmem
  exact h lid hmem

theorem updateOrganismPanel_invariant (se : Bool) (d : OrganismDelta) (vs : ViewState)
    (h : TotalsInvariant vs) : TotalsInvariant (updateOrganismPanel se d vs) := by
  unfold updateOrganismPanel
  split
  · exact h
  · exact refreshLevelTotals_invariant _

theorem applyDelta_invariant (se : Bool) (d : OrganismDelta) (vs : ViewState)
    (h : TotalsInvariant vs) : TotalsInvariant (applyDelta se d vs) :=
  updateOrganismPanel_invariant se d _ (updateSprite_invariant d vs h)

/-- C2 counterexample: after organism a went extinct, a later delta for a
makes the displayed total of level L equal 7, while the total the claim
prescribes (summing only non-extinct members) is 0. -/
theorem level_total_includes_resurrected_member :
    (applyStepList false [resExtinctA, resRepopA] vs0).levelDisplay "L" = some 7 ∧
    specLevelTotal ["a"] (applyStepList false [resExtinctA, resRepopA] vs0) "L" = 0 ∧
    (7 : ℚ) ≠ 0 := by
  refine ⟨?_, ?_, by norm_num⟩
  · norm_num [applyStepList, applyStepToView, applyOrganisms, applyExtinct, applyDelta,
      updateOrganismPanel, updateSprite, markExtinct, markExtinctPanel, updatePanelData,
      refreshLevelTotals, refreshedDisplays, levelTotal, panelContribution,
      vs0, panelA, spriteA, resExtinctA, resRepopA]
  · norm_num [specLevelTotal, applyStepList, applyStepToView, applyOrganisms, applyExtinct,
      applyDelta, updateOrganismPanel, updateSprite, markExtinct, markExtinctPanel,
      updatePanelData, refreshLevelTotals, refreshedDisplays, levelTotal, panelContribution,
      vs0, panelA, spriteA, resExtinctA, resRepopA]

/-- C2 (amended): after every application of a step result, every level
display equals the full recomputation from current member state (members
with a known numeric population contribute it, extinct members contribute
whatever is currently stored for them, 0 unless a later delta overwrote
it), provided the displays were consistent before; the totals are always
recomputed in full, never updated incrementally. -/
theorem totals_always_full_recomputation (se : Bool) (res : StepResult) (vs : ViewState)
    (h : TotalsInvariant vs) : TotalsInvariant (applyStepToView se res vs) := by
  unfold applyStepToView
  split
  · exact foldl_preserve TotalsInvariant (fun d w => applyDelta se d w)
      (fun d w hw => applyDelta_invariant se d w hw) res.organisms vs h
  · exact refreshLevelTotals_invariant _

/-- Closed witness for the amended C2 at a concrete state and response. -/
theorem totals_always_full_recomputation_witness :
    TotalsInvariant (applyStepToView false resRepopA vsDisplayed) :=
  totals_always_full_recomputation false resRepopA vsDisplayed (by
    intro lid hmem
    have hl : lid = "L" := by simpa [vsDisplayed, vs0] using hmem
    subst hl
    norm_num [vsDisplayed, vs0, levelTotal, panelContribution, panelA])

/-! #### The polling controller (claims C3, C4, C5) -/

theorem quiet_no_auto_step {s t : SimState} (h : AutoReachable s t)
    (hq : s.pendingTimeouts = [] ∧ s.pendingRequests = []) : t = s := by
  rcases Relation.ReflTransGen.cases_head h with rfl | ⟨c, hstep, _⟩
  · rfl
  · cases hstep with
    | timeout delay hmem => rw [hq.1] at hmem; cases hmem
    | settle reqId o hmem => rw [hq.2] at hmem; cases hmem

theorem resolveStep_success_not_complete_eq {s : SimState} {id : ℕ} {res : StepResult}
    (h : WfInFlight s id) (hc : res.cycleComplete = false) :
    resolveStep id (.success (some res)) s =
      { s with pendingRequests := []
               currentController := none
               view := applyStepToView s.showExactGenes res s.view
               pendingTimeouts := [stepInterval] } := by
  obtain ⟨hrun, hctl, habort, hreq, htime⟩ := h
  have herase : s.pendingRequests.erase id = [] := by rw [hreq]; simp
  have hmemf : (id ∈ s.aborted) = False := eq_false habort
  simp [resolveStep, runThenChain, runFinally, hc, herase, hmemf, hctl, hrun, htime]

theorem resolveStep_success_complete_eq {s : SimState} {id : ℕ} {res : StepResult}
    (h : WfInFlight s id) (hc : res.cycleComplete = true) :
    resolveStep id (.success (some res)) s =
      { s with pendingRequests := []
               currentController := none
               running := false
               view := applyStepToView s.showExactGenes res s.view
               persistCalls := s.persistCalls ++ [(res.cycleIndex, res.cycleSummary, res.organisms)]
               saveRequests := match res.cycleIndex with
                 | none => s.saveRequests
                 | some c => s.saveRequests ++ [(c, res.cycleSummary, res.organisms)]
               events := s.events ++ [(res.cycleIndex, res.cycleSummary)] } := by
  obtain ⟨hrun, hctl, habort, hreq, htime⟩ := h
  have herase : s.pendingRequests.erase id = [] := by rw [hreq]; simp
  have hmemf : (id ∈ s.aborted) = False := eq_false habort
  cases hidx : res.cycleIndex with
  | none =>
    simp [resolveStep, runThenChain, runFinally, stopSimulation, persistState,
      hc, hidx, herase, hmemf, hctl, htime]
  | some c =>
    simp [resolveStep, runThenChain, runFinally, stopSimulation, persistState,
      hc, hidx, herase, hmemf, hctl, htime]

theorem resolveStep_after_user_stop_eq {s : SimState} {id : ℕ} (o : StepOutcome)
    (h : WfInFlight s id) :
    resolveStep id o (stopSimulation true s) =
      { s with running := false
               aborted := id :: id :: s.aborted
               pendingRequests := []
               currentController := none
               errorsLogged := s.errorsLogged + 1 } := by
  obtain ⟨hrun, hctl, habort, hreq, htime⟩ := h
  have herase : s.pendingRequests.erase id = [] := by rw [hreq]; simp
  simp [stopSimulation, resolveStep, runCatch, runFinally, hctl, herase]

theorem resolveStep_failure_eq {s : SimState} {id : ℕ} (h : WfInFlight s id) :
    resolveStep id .failure s =
      { s with running := false
               aborted := id :: s.aborted
               pendingRequests := []
               currentController := none
               errorsLogged := s.errorsLogged + 1 } := by
  obtain ⟨hrun, hctl, habort, hreq, htime⟩ := h
  have herase : s.pendingRequests.erase id = [] := by rw [hreq]; simp
  have hmemf : (id ∈ s.aborted) = False := eq_false habort
  simp [resolveStep, runCatch, runFinally, stopSimulation, hmemf, herase, hctl]

/-- C3: for every successful (non-aborted) step response handled from the
steady in-flight state: when cycleComplete is false exactly one next step
is scheduled after the fixed 800ms delay and nothing is persisted or
emitted; when cycleComplete is true the loop stops, persistence is
invoked exactly once with the index, summary and organism delta list of
that cycle, the completion event is emitted once, and no further step is ever
issued by the autonomous event loop. -/
theorem step_success_schedules_or_completes (s : SimState) (id : ℕ) (res : StepResult)
    (h : WfInFlight s id) :
    (res.cycleComplete = false →
      (resolveStep id (.success (some res)) s).pendingTimeouts = [stepInterval] ∧
      stepInterval = 800 ∧
      (resolveStep id (.success (some res)) s).running = true ∧
      (resolveStep id (.success (some res)) s).persistCalls = s.persistCalls ∧
      (resolveStep id (.success (some res)) s).events = s.events ∧
      (resolveStep id (.success (some res)) s).stepsIssued = s.stepsIssued) ∧
    (res.cycleComplete = true →
      (resolveStep id (.success (some res)) s).running = false ∧
      (resolveStep id (.success (some res)) s).pendingTimeouts = [] ∧
      (resolveStep id (.success (some res)) s).persistCalls =
        s.persistCalls ++ [(res.cycleIndex, res.cycleSummary, res.organisms)] ∧
      (resolveStep id (.success (some res)) s).events =
        s.events ++ [(res.cycleIndex, res.cycleSummary)] ∧
      ∀ t, AutoReachable (resolveStep id (.success (some res)) s) t →
        t.stepsIssued = (resolveStep id (.success (some res)) s).stepsIssued) := by
  constructor
  · intro hc
    rw [resolveStep_success_not_complete_eq h hc]
    exact ⟨rfl, rfl, h.1, rfl, rfl, rfl⟩
  · intro hc
    rw [resolveStep_success_complete_eq h hc]
    refine ⟨rfl, h.2.2.2.2, rfl, rfl, ?_⟩
    intro t ht
    rw [quiet_no_auto_step ht ⟨h.2.2.2.2, rfl⟩]

/-- Closed witness for C3 in the cycle-complete case at a concrete
in-flight state. -/
theorem step_success_schedules_or_completes_witness :
    (resolveStep 0 (.success (some resComplete)) sInFlight).running = false ∧
    (resolveStep 0 (.success (some resComplete)) sInFlight).persistCalls =
      [(some 2, ["summary"], [{ id := "a", population := some 3 }])] ∧
    (resolveStep 0 (.success (some resComplete)) sInFlight).events = [(some 2, ["summary"])] := by
  have h := (step_success_schedules_or_completes sInFlight 0 resComplete
    ⟨rfl, rfl, by decide, rfl, rfl⟩).2 rfl
  exact ⟨h.1, h.2.2.1, h.2.2.2.1⟩

/-- C4: stopping while a step request is in flight aborts that request,
and when the response later arrives (with any outcome) the view state is
not mutated, no further step is scheduled, no step is issued, and the
autonomous event loop can never mutate the view or issue a step again. -/
theorem stop_cancels_inflight_request (s : SimState) (id : ℕ) (o : StepOutcome)
    (h : WfInFlight s id) :
    id ∈ (stopSimulation true s).aborted ∧
    (resolveStep id o (stopSimulation true s)).view = s.view ∧
    (resolveStep id o (stopSimulation true s)).pendingTimeouts = [] ∧
    (resolveStep id o (stopSimulation true s)).stepsIssued = s.stepsIssued ∧
    ∀ t, AutoReachable (resolveStep id o (stopSimulation true s)) t →
      t.view = s.view ∧ t.stepsIssued = s.stepsIssued := by
  have habort : id ∈ (stopSimulation true s).aborted := by
    simp [stopSimulation, h.2.1]
  rw [resolveStep_after_user_stop_eq o h]
  refine ⟨habort, rfl, h.2.2.2.2, rfl, ?_⟩
  intro t ht
  rw [quiet_no_auto_step ht ⟨h.2.2.2.2, rfl⟩]
  exact ⟨rfl, rfl⟩

/-- Closed witness for C4 at a concrete in-flight state. -/
theorem stop_cancels_inflight_request_witness :
    0 ∈ (stopSimulation true sInFlight).aborted ∧
    (resolveStep 0 (.success (some resComplete)) (stopSimulation true sInFlight)).view = sInFlight.view ∧
    (resolveStep 0 (.success (some resComplete)) (stopSimulation true sInFlight)).stepsIssued =
      sInFlight.stepsIssued := by
  have h := stop_cancels_inflight_request sInFlight 0 (.success (some resComplete))
    ⟨rfl, rfl, by decide, rfl, rfl⟩
  exact ⟨h.1, h.2.1, h.2.2.2.1⟩

/-- C5: a failed step request (non-2xx status or transport error) is
fatal for the run: the loop stops, the error is logged once, no retry is
scheduled, and the autonomous event loop never issues a further step. -/
theorem step_failure_is_fatal (s : SimState) (id : ℕ) (h : WfInFlight s id) :
    (resolveStep id .failure s).running = false ∧
    (resolveStep id .failure s).errorsLogged = s.errorsLogged + 1 ∧
    (resolveStep id .failure s).pendingTimeouts = [] ∧
    (resolveStep id .failure s).stepsIssued = s.stepsIssued ∧
    ∀ t, AutoReachable (resolveStep id .failure s) t →
      t.stepsIssued = s.stepsIssued := by
  rw [resolveStep_failure_eq h]
  refine ⟨rfl, rfl, h.2.2.2.2, rfl, ?_⟩
  intro t ht
  rw [quiet_no_auto_step ht ⟨h.2.2.2.2, rfl⟩]

/-- Closed witness for C5 at a concrete in-flight state. -/
theorem step_failure_is_fatal_witness :
    (resolveStep 0 .failure sInFlight).running = false ∧
    (resolveStep 0 .failure sInFlight).errorsLogged = 1 ∧
    (resolveStep 0 .failure sInFlight).pendingTimeouts = [] := by
  have h := step_failure_is_fatal sInFlight 0 ⟨rfl, rfl, by decide, rfl, rfl⟩
  exact ⟨h.1, h.2.1, h.2.2.1⟩

/-! #### Masked-write algebra -/

theorem oor_getD {α : Type} (a b : Option α) (x : α) : (oor a b).getD x = a.getD (b.getD x) := by
  cases a <;> rfl

theorem oor_self {α : Type} (a : Option α) : oor a a = a := by
  cases a <;> rfl

theorem oor_none_right {α : Type} (a : Option α) : oor a none = a := by
  cases a <;> rfl

theorem PanelWrite.apply_after (w2 w1 : PanelWrite) (p : OrganismPanel) :
    (w2.after w1).apply p = w2.apply (w1.apply p) := by
  simp [PanelWrite.apply, PanelWrite.after, oor_getD]

theorem PanelWrite.after_self (w : PanelWrite) : w.after w = w := by
  simp [PanelWrite.after, oor_self]

theorem PanelWrite.after_empty (w : PanelWrite) : w.after {} = w := by
  simp [PanelWrite.after, oor_none_right]

theorem PanelWrite.apply_empty (p : OrganismPanel) : PanelWrite.apply {} p = p := rfl

theorem spriteWrite_apply_after (w2 w1 : SpriteWrite) (s : SpriteState) :
    (w2.after w1).apply s = w2.apply (w1.apply s) := by
  simp [SpriteWrite.apply, SpriteWrite.after, oor_getD]

theorem spriteWrite_after_self (w : SpriteWrite) : w.after w = w := by
  simp [SpriteWrite.after, oor_self]

theorem spriteWrite_after_empty (w : SpriteWrite) : w.after {} = w := by
  simp [SpriteWrite.after, oor_none_right]

theorem spriteWrite_apply_empty (s : SpriteState) : SpriteWrite.apply {} s = s := rfl

theorem PanelWrite.apply_static (w : PanelWrite) (p : OrganismPanel) :
    (w.apply p).levelId = p.levelId ∧
    (w.apply p).hasPopulationNode = p.hasPopulationNode ∧
    (w.apply p).hasGenomeNode = p.hasGenomeNode ∧
    (w.apply p).hasCoordsNode = p.hasCoordsNode := ⟨rfl, rfl, rfl, rfl⟩

theorem updatePanelData_eq_write (se : Bool) (d : OrganismDelta) (p : OrganismPanel) :
    updatePanelData se d p =
      (panelDeltaWrite se p.hasPopulationNode p.hasGenomeNode p.hasCoordsNode d).apply p := by
  unfold updatePanelData panelDeltaWrite PanelWrite.apply
  cases d.population <;> cases d.row <;> cases d.col <;> dsimp only <;> split_ifs <;> rfl

theorem markExtinctPanel_eq_write (p : OrganismPanel) :
    markExtinctPanel p = (panelExtinctWrite p.hasPopulationNode).apply p := by
  unfold markExtinctPanel panelExtinctWrite PanelWrite.apply
  split_ifs <;> rfl

theorem updateSpriteData_eq_write (d : OrganismDelta) (s : SpriteState) :
    updateSpriteData d s = (spriteDeltaWrite d).apply s := by
  unfold updateSpriteData spriteDeltaWrite SpriteWrite.apply
  cases d.row <;> cases d.col <;> rfl

theorem PanelWrite.apply_hasPopulationNode (w : PanelWrite) (p : OrganismPanel) :
    (w.apply p).hasPopulationNode = p.hasPopulationNode := rfl

theorem PanelWrite.apply_hasGenomeNode (w : PanelWrite) (p : OrganismPanel) :
    (w.apply p).hasGenomeNode = p.hasGenomeNode := rfl

theorem PanelWrite.apply_hasCoordsNode (w : PanelWrite) (p : OrganismPanel) :
    (w.apply p).hasCoordsNode = p.hasCoordsNode := rfl

theorem panelWritesFor_cons (se : Bool) (hp hg hc : Bool) (k : String) (op : StepOp)
    (ops : List StepOp) :
    panelWritesFor se hp hg hc k (op :: ops) =
      (panelWritesFor se hp hg hc k ops).after
        (match op with
         | .delta d => if k = d.id then panelDeltaWrite se hp hg hc d else {}
         | .gone i => if k = i then panelExtinctWrite hp else {}) := rfl

theorem spriteWritesFor_cons (k : String) (op : StepOp) (ops : List StepOp) :
    spriteWritesFor k (op :: ops) =
      (spriteWritesFor k ops).after
        (match op with
         | .delta d => if k = d.id then spriteDeltaWrite d else {}
         | .gone _ => {}) := rfl

/-! #### Per-key characterization of the reconciliation op folds -/

theorem panelOpAt_none (se : Bool) (k : String) (op : StepOp) :
    panelOpAt se op k none = none := by
  cases op <;> simp [panelOpAt]

theorem spriteOpAt_none (k : String) (op : StepOp) : spriteOpAt op k none = none := by
  cases op <;> simp [spriteOpAt]

theorem panelFold_none (se : Bool) (k : String) (ops : List StepOp) :
    ops.foldl (fun v op => panelOpAt se op k v) none = none := by
  induction ops with
  | nil => rfl
  | cons op ops ih => rw [List.foldl_cons, panelOpAt_none]; exact ih

theorem spriteFold_none (k : String) (ops : List StepOp) :
    ops.foldl (fun v op => spriteOpAt op k v) none = none := by
  induction ops with
  | nil => rfl
  | cons op ops ih => rw [List.foldl_cons, spriteOpAt_none]; exact ih

theorem panelFold_some (se : Bool) (k : String) :
    ∀ (ops : List StepOp) (p : OrganismPanel),
      ops.foldl (fun v op => panelOpAt se op k v) (some p) =
        some ((panelWritesFor se p.hasPopulationNode p.hasGenomeNode p.hasCoordsNode k ops).apply p) := by
  intro ops
  induction ops with
  | nil => intro p; rfl
  | cons op ops ih =>
    intro p
    rw [List.foldl_cons, panelWritesFor_cons]
    cases op with
    | delta d =>
      by_cases hk : k = d.id
      · have h1 : panelOpAt se (.delta d) k (some p) = some (updatePanelData se d p) := by
          simp [panelOpAt, hk]
        rw [h1, ih, updatePanelData_eq_write]
        simp only [PanelWrite.apply_hasPopulationNode, PanelWrite.apply_hasGenomeNode,
          PanelWrite.apply_hasCoordsNode, ← PanelWrite.apply_after]
        simp [hk]
      · have h1 : panelOpAt se (.delta d) k (some p) = some p := by
          simp [panelOpAt, hk]
        rw [h1, ih]
        simp [hk, PanelWrite.after_empty]
    | gone i =>
      by_cases hk : k = i
      · have h1 : panelOpAt se (.gone i) k (some p) = some (markExtinctPanel p) := by
          simp [panelOpAt, hk]
        rw [h1, ih, markExtinctPanel_eq_write]
        simp only [PanelWrite.apply_hasPopulationNode, PanelWrite.apply_hasGenomeNode,
          PanelWrite.apply_hasCoordsNode, ← PanelWrite.apply_after]
        simp [hk]
      · have h1 : panelOpAt se (.gone i) k (some p) = some p := by
          simp [panelOpAt, hk]
        rw [h1, ih]
        simp [hk, PanelWrite.after_empty]

theorem spriteFold_kill (k : String) :
    ∀ (ops : List StepOp) (v : Option SpriteState), killsSprite k ops →
      ops.foldl (fun v op => spriteOpAt op k v) v = none := by
  intro ops
  induction ops with
  | nil => intro v h; cases h
  | cons op ops ih =>
    intro v h
    rw [List.foldl_cons]
    cases op with
    | delta d =>
      refine ih _ ?_
      rcases List.mem_cons.mp h with h1 | h2
      · cases h1
      · exact h2
    | gone i =>
      by_cases hk : k = i
      · have h1 : spriteOpAt (.gone i) k v = none := by simp [spriteOpAt, hk]
        rw [h1]
        exact spriteFold_none k ops
      · have h1 : spriteOpAt (.gone i) k v = v := by simp [spriteOpAt, hk]
        rw [h1]
        refine ih _ ?_
        rcases List.mem_cons.mp h with h1 | h2
        · cases h1; exact absurd rfl hk
        · exact h2

theorem spriteFold_some_nokill (k : String) :
    ∀ (ops : List StepOp) (s : SpriteState), ¬ killsSprite k ops →
      ops.foldl (fun v op => spriteOpAt op k v) (some s) =
        some ((spriteWritesFor k ops).apply s) := by
  intro ops
  induction ops with
  | nil => intro s h; rfl
  | cons op ops ih =>
    intro s h
    have htail : ¬ killsSprite k ops := fun hm => h (List.mem_cons_of_mem op hm)
    rw [List.foldl_cons, spriteWritesFor_cons]
    cases op with
    | delta d =>
      by_cases hk : k = d.id
      · have h1 : spriteOpAt (.delta d) k (some s) = some (updateSpriteData d s) := by
          simp [spriteOpAt, hk]
        rw [h1, ih _ htail, updateSpriteData_eq_write, ← spriteWrite_apply_after]
        simp [hk]
      · have h1 : spriteOpAt (.delta d) k (some s) = some s := by
          simp [spriteOpAt, hk]
        rw [h1, ih _ htail]
        simp [hk, spriteWrite_after_empty]
    | gone i =>
      have hk : ¬ k = i := fun hki => h (by rw [killsSprite, hki]; exact List.mem_cons_self _ _)
      have h1 : spriteOpAt (.gone i) k (some s) = some s := by simp [spriteOpAt, hk]
      rw [h1, ih _ htail]
      simp [spriteWrite_after_empty]

theorem panelFold_isSome (se : Bool) (k : String) :
    ∀ (ops : List StepOp) (v : Option OrganismPanel),
      (ops.foldl (fun v op => panelOpAt se op k v) v).isSome = v.isSome := by
  intro ops
  induction ops with
  | nil => intro v; rfl
  | cons op ops ih =>
    intro v
    rw [List.foldl_cons]
    have h : (panelOpAt se op k v).isSome = v.isSome := by
      cases op <;> simp [panelOpAt] <;> split <;> simp
    rw [ih, h]

theorem panelFold_idem (se : Bool) (k : String) (ops : List StepOp) (v : Option OrganismPanel) :
    ops.foldl (fun v op => panelOpAt se op k v)
        (ops.foldl (fun v op => panelOpAt se op k v) v) =
      ops.foldl (fun v op => panelOpAt se op k v) v := by
  cases v with
  | none => rw [panelFold_none, panelFold_none]
  | some p =>
    rw [panelFold_some, panelFold_some]
    simp only [PanelWrite.apply_hasPopulationNode, PanelWrite.apply_hasGenomeNode,
      PanelWrite.apply_hasCoordsNode, ← PanelWrite.apply_after, PanelWrite.after_self]

theorem spriteFold_idem (k : String) (ops : List StepOp) (v : Option SpriteState) :
    ops.foldl (fun v op => spriteOpAt op k v)
        (ops.foldl (fun v op => spriteOpAt op k v) v) =
      ops.foldl (fun v op => spriteOpAt op k v) v := by
  by_cases hkill : killsSprite k ops
  · rw [spriteFold_kill k ops _ hkill, spriteFold_kill k ops _ hkill]
  · cases v with
    | none => rw [spriteFold_none, spriteFold_none]
    | some s =>
      rw [spriteFold_some_nokill k ops _ hkill, spriteFold_some_nokill k ops _ hkill,
        ← spriteWrite_apply_after, spriteWrite_after_self]

/-! #### Whole-state characterization of a step application -/

theorem applyOrganisms_panels (se : Bool) (k : String) :
    ∀ (ds : List OrganismDelta) (vs : ViewState),
      (applyOrganisms se ds vs).panels k =
        (ds.map StepOp.delta).foldl (fun v op => panelOpAt se op k v) (vs.panels k) := by
  intro ds
  induction ds with
  | nil => intro vs; rfl
  | cons d ds ih =>
    intro vs
    have hstep : (applyDelta se d vs).panels k = panelOpAt se (.delta d) k (vs.panels k) := by
      rw [applyDelta_panels]; rfl
    show (applyOrganisms se ds (applyDelta se d vs)).panels k = _
    rw [ih, hstep]
    rfl

theorem applyExtinct_panels (se : Bool) (k : String) :
    ∀ (ids : List String) (vs : ViewState),
      (applyExtinct ids vs).panels k =
        (ids.map StepOp.gone).foldl (fun v op => panelOpAt se op k v) (vs.panels k) := by
  intro ids
  induction ids with
  | nil => intro vs; rfl
  | cons i ids ih =>
    intro vs
    have hstep : (markExtinct i vs).panels k = panelOpAt se (.gone i) k (vs.panels k) := rfl
    show (applyExtinct ids (markExtinct i vs)).panels k = _
    rw [ih, hstep]
    rfl

theorem applyOrganisms_sprites (k : String) (se : Bool) :
    ∀ (ds : List OrganismDelta) (vs : ViewState),
      (applyOrganisms se ds vs).sprites k =
        (ds.map StepOp.delta).foldl (fun v op => spriteOpAt op k v) (vs.sprites k) := by
  intro ds
  induction ds with
  | nil => intro vs; rfl
  | cons d ds ih =>
    intro vs
    have hstep : (applyDelta se d vs).sprites k = spriteOpAt (.delta d) k (vs.sprites k) := by
      rw [applyDelta_sprites]; rfl
    show (applyOrganisms se ds (applyDelta se d vs)).sprites k = _
    rw [ih, hstep]
    rfl

theorem applyExtinct_sprites (k : String) :
    ∀ (ids : List String) (vs : ViewState),
      (applyExtinct ids vs).sprites k =
        (ids.map StepOp.gone).foldl (fun v op => spriteOpAt op k v) (vs.sprites k) := by
  intro ids
  induction ids with
  | nil => intro vs; rfl
  | cons i ids ih =>
    intro vs
    have hstep : (markExtinct i vs).sprites k = spriteOpAt (.gone i) k (vs.sprites k) := rfl
    show (applyExtinct ids (markExtinct i vs)).sprites k = _
    rw [ih, hstep]
    rfl

theorem applyStepToView_panels (se : Bool) (res : StepResult) (vs : ViewState) (k : String) :
    (applyStepToView se res vs).panels k =
      (stepOps res).foldl (fun v op => panelOpAt se op k v) (vs.panels k) := by
  by_cases he : res.extinct.isEmpty = true
  · have hnil : res.extinct = [] := List.isEmpty_iff.mp he
    simp only [applyStepToView, he, if_true]
    rw [stepOps, hnil]
    simp only [List.map_nil, List.append_nil]
    exact applyOrganisms_panels se k res.organisms vs
  · simp only [applyStepToView, he, Bool.false_eq_true, if_false]
    rw [refreshLevelTotals_panels, applyExtinct_panels se k, applyOrganisms_panels se k,
      stepOps, List.foldl_append]

theorem applyStepToView_sprites (se : Bool) (res : StepResult) (vs : ViewState) (k : String) :
    (applyStepToView se res vs).sprites k =
      (stepOps res).foldl (fun v op => spriteOpAt op k v) (vs.sprites k) := by
  by_cases he : res.extinct.isEmpty = true
  · have hnil : res.extinct = [] := List.isEmpty_iff.mp he
    simp only [applyStepToView, he, if_true]
    rw [stepOps, hnil]
    simp only [List.map_nil, List.append_nil]
    exact applyOrganisms_sprites k se res.organisms vs
  · simp only [applyStepToView, he, Bool.false_eq_true, if_false]
    rw [refreshLevelTotals_sprites, applyExtinct_sprites k, applyOrganisms_sprites k se,
      stepOps, List.foldl_append]

theorem applyOrganisms_ids (se : Bool) :
    ∀ (ds : List OrganismDelta) (vs : ViewState),
      (applyOrganisms se ds vs).panelIds = vs.panelIds ∧
        (applyOrganisms se ds vs).levelIds = vs.levelIds := by
  intro ds
  induction ds with
  | nil => exact fun vs => ⟨rfl, rfl⟩
  | cons d ds ih =>
    intro vs
    have h1 := applyDelta_ids se d vs
    have h2 := ih (applyDelta se d vs)
    exact ⟨h2.1.trans h1.1, h2.2.trans h1.2⟩

theorem applyExtinct_ids :
    ∀ (ids : List String) (vs : ViewState),
      (applyExtinct ids vs).panelIds = vs.panelIds ∧
        (applyExtinct ids vs).levelIds = vs.levelIds := by
  intro ids
  induction ids with
  | nil => exact fun vs => ⟨rfl, rfl⟩
  | cons i ids ih =>
    intro vs
    exact ⟨(ih (markExtinct i vs)).1, (ih (markExtinct i vs)).2⟩

theorem applyExtinct_levelDisplay :
    ∀ (ids : List String) (vs : ViewState),
      (applyExtinct ids vs).levelDisplay = vs.levelDisplay := by
  intro ids
  induction ids with
  | nil => exact fun vs => rfl
  | cons i ids ih =>
    intro vs
    exact (ih (markExtinct i vs)).trans (markExtinct_levelDisplay i vs)

theorem refreshedDisplays_congr {v1 v2 : ViewState} (hp : v1.panels = v2.panels)
    (hpi : v1.panelIds = v2.panelIds) (hli : v1.levelIds = v2.levelIds)
    (old : String → Option ℚ) :
    refreshedDisplays v1 old = refreshedDisplays v2 old := by
  funext lid
  unfold refreshedDisplays
  rw [hli, levelTotal_congr hp hpi]

theorem refreshedDisplays_absorb {v1 v2 : ViewState} (h : v2.levelIds = v1.levelIds)
    (old : String → Option ℚ) :
    refreshedDisplays v1 (refreshedDisplays v2 old) = refreshedDisplays v1 old := by
  funext lid
  unfold refreshedDisplays
  by_cases hm : lid ∈ v1.levelIds
  · rw [if_pos hm, if_pos hm]
  · rw [if_neg hm, if_neg hm, if_neg (fun hc => hm (h ▸ hc))]

theorem applyDelta_isSome (se : Bool) (d : OrganismDelta) (vs : ViewState) (k : String) :
    ((applyDelta se d vs).panels k).isSome = (vs.panels k).isSome := by
  rw [applyDelta_panels]
  split <;> simp

theorem applyDelta_unknown_panels (se : Bool) (d : OrganismDelta) (vs : ViewState)
    (h : vs.panels d.id = none) : (applyDelta se d vs).panels = vs.panels := by
  funext k
  rw [applyDelta_panels]
  by_cases hk : k = d.id
  · subst hk; rw [if_pos rfl, h]; rfl
  · rw [if_neg hk]

theorem applyDelta_unknown_levelDisplay (se : Bool) (d : OrganismDelta) (vs : ViewState)
    (h : vs.panels d.id = none) : (applyDelta se d vs).levelDisplay = vs.levelDisplay := by
  unfold applyDelta updateOrganismPanel
  have h2 : (updateSprite d vs).panels d.id = none := h
  simp only [h2]
  rfl

theorem applyDelta_known_levelDisplay (se : Bool) (d : OrganismDelta) (vs : ViewState)
    (h : (vs.panels d.id).isSome = true) :
    (applyDelta se d vs).levelDisplay = refreshedDisplays (applyDelta se d vs) vs.levelDisplay := by
  obtain ⟨p, hp⟩ := Option.isSome_iff_exists.mp h
  unfold applyDelta updateOrganismPanel
  have h2 : (updateSprite d vs).panels d.id = some p := hp
  simp only [h2]
  exact refreshedDisplays_congr rfl rfl rfl _

theorem applyOrganisms_unknown_panels (se : Bool) :
    ∀ (ds : List OrganismDelta) (vs : ViewState),
      (∀ d ∈ ds, (vs.panels d.id).isSome = false) →
      (applyOrganisms se ds vs).panels = vs.panels := by
  intro ds
  induction ds with
  | nil => exact fun vs _ => rfl
  | cons d ds ih =>
    intro vs h
    have hd := h d (List.mem_cons_self d ds)
    have hnone : vs.panels d.id = none := by
      cases hv : vs.panels d.id with
      | none => rfl
      | some p => rw [hv] at hd; simp at hd
    have hpan := applyDelta_unknown_panels se d vs hnone
    show (applyOrganisms se ds (applyDelta se d vs)).panels = vs.panels
    rw [ih (applyDelta se d vs) (fun d2 hd2 => by
      rw [hpan]; exact h d2 (List.mem_cons_of_mem d hd2)), hpan]

theorem applyOrganisms_levelDisplay (se : Bool) :
    ∀ (ds : List OrganismDelta) (vs : ViewState),
      (applyOrganisms se ds vs).levelDisplay =
        if ds.any (fun d => (vs.panels d.id).isSome)
        then refreshedDisplays (applyOrganisms se ds vs) vs.levelDisplay
        else vs.levelDisplay := by
  intro ds
  induction ds with
  | nil => intro vs; simp [applyOrganisms]
  | cons d ds ih =>
    intro vs
    have hcons : applyOrganisms se (d :: ds) vs = applyOrganisms se ds (applyDelta se d vs) := rfl
    have hfix : ∀ k, ((applyDelta se d vs).panels k).isSome = (vs.panels k).isSome :=
      applyDelta_isSome se d vs
    have hids := applyOrganisms_ids se ds (applyDelta se d vs)
    by_cases hd : (vs.panels d.id).isSome = true
    · have hlev := applyDelta_known_levelDisplay se d vs hd
      have hany : (d :: ds).any (fun d => (vs.panels d.id).isSome) = true := by
        simp [List.any_cons, hd]
      rw [hcons, ih (applyDelta se d vs), hany, if_pos rfl]
      simp only [hfix]
      by_cases hds : ds.any (fun d => (vs.panels d.id).isSome) = true
      · rw [if_pos hds, hlev]
        exact refreshedDisplays_absorb hids.2.symm vs.levelDisplay
      · rw [if_neg hds, hlev]
        have hdsf : ds.any (fun d => (vs.panels d.id).isSome) = false := by
          cases hb : ds.any (fun d => (vs.panels d.id).isSome) with
          | false => rfl
          | true => exact absurd hb hds
        have hall : ∀ d2 ∈ ds, ((applyDelta se d vs).panels d2.id).isSome = false := by
          intro d2 hd2
          rw [hfix d2.id]
          have hne := List.any_eq_false.mp hdsf d2 hd2
          cases hv : (vs.panels d2.id).isSome with
          | false => rfl
          | true => exact absurd hv hne
        have hfin := applyOrganisms_unknown_panels se ds (applyDelta se d vs) hall
        exact refreshedDisplays_congr hfin.symm hids.1.symm hids.2.symm vs.levelDisplay
    · have hnone : vs.panels d.id = none := by
        cases hv : vs.panels d.id with
        | none => rfl
        | some p => rw [hv] at hd; simp at hd
      have hlev0 := applyDelta_unknown_levelDisplay se d vs hnone
      have hpan0 := applyDelta_unknown_panels se d vs hnone
      have hany : (d :: ds).any (fun d => (vs.panels d.id).isSome) =
          ds.any (fun d => (vs.panels d.id).isSome) := by
        simp [List.any_cons, hnone]
      rw [hcons, ih (applyDelta se d vs)]
      simp only [hpan0, hlev0]
      rw [hany]

theorem applyStepToView_levelDisplay (se : Bool) (res : StepResult) (vs : ViewState) :
    (applyStepToView se res vs).levelDisplay =
      if (res.organisms.any (fun d => (vs.panels d.id).isSome) || !res.extinct.isEmpty)
      then refreshedDisplays (applyStepToView se res vs) vs.levelDisplay
      else vs.levelDisplay := by
  by_cases he : res.extinct.isEmpty = true
  · simp only [applyStepToView, he, if_true, Bool.not_true, Bool.or_false]
    exact applyOrganisms_levelDisplay se res.organisms vs
  · have he2 : res.extinct.isEmpty = false := by
      cases hb : res.extinct.isEmpty with
      | false => rfl
      | true => exact absurd hb he
    simp only [applyStepToView, he2, Bool.false_eq_true, if_false, Bool.not_false,
      Bool.or_true, if_true]
    have hW : (refreshLevelTotals (applyExtinct res.extinct
          (applyOrganisms se res.organisms vs))).levelDisplay =
        refreshedDisplays (applyExtinct res.extinct (applyOrganisms se res.organisms vs))
          ((applyExtinct res.extinct (applyOrganisms se res.organisms vs)).levelDisplay) := rfl
    rw [hW, applyExtinct_levelDisplay, applyOrganisms_levelDisplay se res.organisms vs]
    have hcongr : refreshedDisplays
        (applyExtinct res.extinct (applyOrganisms se res.organisms vs)) vs.levelDisplay =
        refreshedDisplays (refreshLevelTotals (applyExtinct res.extinct
          (applyOrganisms se res.organisms vs))) vs.levelDisplay :=
      refreshedDisplays_congr rfl rfl rfl vs.levelDisplay
    by_cases horg : res.organisms.any (fun d => (vs.panels d.id).isSome) = true
    · rw [if_pos horg]
      rw [refreshedDisplays_absorb
        (applyExtinct_ids res.extinct (applyOrganisms se res.organisms vs)).2.symm vs.levelDisplay]
      exact hcongr
    · rw [if_neg horg]
      exact hcongr

theorem applyStepToView_isSome (se : Bool) (res : StepResult) (vs : ViewState) (k : String) :
    ((applyStepToView se res vs).panels k).isSome = (vs.panels k).isSome := by
  rw [applyStepToView_panels, panelFold_isSome]

/-- C9: applying the same step payload twice in a row yields exactly the
same view state as applying it once (so in particular the explicitly set
population and genome fields agree), and after the second application
each transient sprite flag equals the value carried by the delta, so a
flag absent from the payload is indeed cleared rather than preserved. -/
theorem step_application_idempotent (se : Bool) :
    (∀ (res : StepResult) (vs : ViewState),
      applyStepToView se res (applyStepToView se res vs) = applyStepToView se res vs) ∧
    (∀ (d : OrganismDelta) (w : ViewState) (s0 : SpriteState), w.sprites d.id = some s0 →
      ∃ s1, (applyDelta se d (applyDelta se d w)).sprites d.id = some s1 ∧
        s1.caughtPrey = d.caughtPrey ∧ s1.cycleStep = d.cycleStep ∧ s1.canMove = d.canMove) := by
  constructor
  · intro res vs
    have hpanels : ∀ k, (applyStepToView se res (applyStepToView se res vs)).panels k =
        (applyStepToView se res vs).panels k := by
      intro k
      rw [applyStepToView_panels, applyStepToView_panels, panelFold_idem]
    have hsprites : ∀ k, (applyStepToView se res (applyStepToView se res vs)).sprites k =
        (applyStepToView se res vs).sprites k := by
      intro k
      rw [applyStepToView_sprites, applyStepToView_sprites, spriteFold_idem]
    have hids := applyStepToView_ids se res (applyStepToView se res vs)
    have hsome : ∀ x, ((applyStepToView se res vs).panels x).isSome = (vs.panels x).isSome :=
      applyStepToView_isSome se res vs
    apply ViewState.ext hids.1 hids.2 (funext hpanels) (funext hsprites)
    rw [applyStepToView_levelDisplay se res (applyStepToView se res vs)]
    simp only [hsome]
    by_cases hcond :
        (res.organisms.any (fun d => (vs.panels d.id).isSome) || !res.extinct.isEmpty) = true
    · rw [if_pos hcond]
      rw [applyStepToView_levelDisplay se res vs, if_pos hcond,
        refreshedDisplays_absorb hids.2.symm vs.levelDisplay]
      exact refreshedDisplays_congr (funext hpanels) hids.1 hids.2 vs.levelDisplay
    · rw [if_neg hcond]
  · intro d w s0 h
    have h1 : (applyDelta se d w).sprites d.id = some (updateSpriteData d s0) := by
      rw [applyDelta_sprites, if_pos rfl, h]
      rfl
    have h2 : (applyDelta se d (applyDelta se d w)).sprites d.id =
        some (updateSpriteData d (updateSpriteData d s0)) := by
      rw [applyDelta_sprites, if_pos rfl, h1]
      rfl
    exact ⟨_, h2, rfl, rfl, rfl⟩

/-- Closed witness for the flag part of C9: a delta for organism a whose
caughtPrey flag is present and whose other flags are absent, applied
twice, leaves caughtPrey set and the absent flags cleared. -/
theorem step_application_idempotent_witness :
    ∃ s1, (applyDelta false { id := "a", caughtPrey := some true }
        (applyDelta false { id := "a", caughtPrey := some true } vs0)).sprites "a" = some s1 ∧
      s1.caughtPrey = some true ∧ s1.cycleStep = none ∧ s1.canMove = none :=
  (step_application_idempotent false).2 { id := "a", caughtPrey := some true } vs0 spriteA
    (by decide)

/-- C10 counterexample: a delta whose averageGenome is the empty array
and which carries a traitNames array makes the display n/a, yet caches
the empty array (not null) in lastAverageGenome and the trait array (not
null) in lastTraitNames, so the claimed reset to null is false. -/
theorem genome_cache_keeps_empty_array_and_traits :
    ((applyDelta false deltaEmptyGenome vs0).panels "a").map
        (fun p => (p.genomeText, p.lastAverageGenome, p.lastTraitNames)) =
      some ("Avg genome: n/a", some [], some ["X"]) ∧
    (some ([] : List GeneVal) ≠ (none : Option (List GeneVal))) ∧
    (some (["X"] : List String) ≠ (none : Option (List String))) :=
  ⟨by decide, by decide, by decide⟩

theorem updatePanelData_genome_fields (se : Bool) (d : OrganismDelta) (p : OrganismPanel)
    (hg : p.hasGenomeNode = true) :
    (updatePanelData se d p).genomeText = (match d.averageGenome with
      | some g => formatGenome se g d.traitNames
      | none => "Avg genome: n/a") ∧
    (updatePanelData se d p).lastAverageGenome = d.averageGenome ∧
    (updatePanelData se d p).lastTraitNames = d.traitNames := by
  rw [updatePanelData_eq_write, hg]
  refine ⟨?_, ?_, ?_⟩ <;> simp [PanelWrite.apply, panelDeltaWrite]

/-- C10 (amended): for every delta addressing a known organism whose
panel has a genome node, the genome display becomes the n/a string
whenever the genome field is absent, non-array or an empty array; the
cached lastAverageGenome is overwritten with exactly the genome
field of the delta (null when absent or non-array, the empty array when
empty), and lastTraitNames is overwritten with exactly the traitNames
field of the delta (null when absent or non-array) regardless of the
genome field. -/
theorem genome_absence_overwrites_display_and_caches (se : Bool) (d : OrganismDelta)
    (vs : ViewState) (p : OrganismPanel) (hp : vs.panels d.id = some p)
    (hg : p.hasGenomeNode = true) :
    ∃ p2, (applyDelta se d vs).panels d.id = some p2 ∧
      (d.averageGenome = none ∨ d.averageGenome = some [] → p2.genomeText = "Avg genome: n/a") ∧
      p2.lastAverageGenome = d.averageGenome ∧
      p2.lastTraitNames = d.traitNames := by
  have h1 : (applyDelta se d vs).panels d.id = some (updatePanelData se d p) := by
    rw [applyDelta_panels, if_pos rfl, hp]
    rfl
  obtain ⟨hgt, hlag, hltn⟩ := updatePanelData_genome_fields se d p hg
  refine ⟨_, h1, ?_, hlag, hltn⟩
  intro hcase
  rcases hcase with hnone | hempty
  · rw [hgt, hnone]
  · rw [hgt, hempty]
    rfl

/-- Closed witness for the amended C10 at the concrete delta of the
counterexample. -/
theorem genome_absence_overwrites_display_and_caches_witness :
    ∃ p2, (applyDelta false deltaEmptyGenome vs0).panels deltaEmptyGenome.id = some p2 ∧
      (deltaEmptyGenome.averageGenome = none ∨ deltaEmptyGenome.averageGenome = some [] →
        p2.genomeText = "Avg genome: n/a") ∧
      p2.lastAverageGenome = deltaEmptyGenome.averageGenome ∧
      p2.lastTraitNames = deltaEmptyGenome.traitNames :=
  genome_absence_overwrites_display_and_caches false deltaEmptyGenome vs0 panelA
    (by decide) rfl

section ClaimC6C7C8

/-- Helper fact: a character built from code point `48 + r` with `r < 10`
is a decimal digit. -/
theorem ofNat_digit_isDigit : ∀ r < 10, (Char.ofNat (48 + r)).isDigit = true := by decide

theorem digitChar_isDigit (n : ℕ) : (digitChar n).isDigit = true :=
  ofNat_digit_isDigit (n % 10) (Nat.mod_lt n (by omega))

theorem pad3_length (n : ℕ) : (pad3 n).length = 3 := rfl

theorem pad3_digits (n : ℕ) : ∀ c ∈ (pad3 n).data, c.isDigit = true := by
  intro c hc
  simp only [pad3, String.mk, List.mem_cons, List.not_mem_nil, or_false] at hc
  rcases hc with rfl | rfl | rfl <;> exact digitChar_isDigit _

/-- C6: in genotype display mode every genome value is classified by the
fixed thresholds (value ≥ 0.75 gives TT, 0.25 < value < 0.75 gives Tt,
anything else gives tt, with no clamping of out-of-range values), and
formatting the vector [0.9, 0.5, 0.1, 0.0] with no trait names in genotype
mode yields the stated string. -/
theorem genotype_thresholds_and_format :
    (∀ q : ℚ, genotypeLabel (some q) =
      if q ≥ 0.75 then "TT" else if 0.25 < q ∧ q < 0.75 then "Tt" else "tt") ∧
    formatGenome false [some 0.9, some 0.5, some 0.1, some 0.0] none =
      "Avg genome: Trait 1: TT | Trait 2: Tt | Trait 3: tt | Trait 4: tt" := by
  refine ⟨fun q => rfl, ?_⟩
  have h9 : genotypeLabel (some 0.9) = "TT" := by norm_num [genotypeLabel]
  have h5 : genotypeLabel (some 0.5) = "Tt" := by norm_num [genotypeLabel]
  have h1 : genotypeLabel (some 0.1) = "tt" := by norm_num [genotypeLabel]
  have h0 : genotypeLabel (some 0.0) = "tt" := by norm_num [genotypeLabel]
  simp only [formatGenome, List.mapIdx_cons, List.mapIdx_nil, formatGeneValue,
    Bool.false_eq_true, if_false, h9, h5, h1, h0]
  decide

/-- C7: in numeric display mode a non-finite value renders as n/a, a
finite value renders as the trait label, a colon, and a decimal string
whose fractional part has exactly three digit characters, and formatting
[0.333333] with trait list ["Beak"] in numeric mode yields the stated
string. -/
theorem numeric_mode_rendering :
    (∀ (traitNames : Option (List String)) (index : ℕ),
      formatGeneValue true none traitNames index =
        resolveTraitName traitNames index ++ ": " ++ "n/a") ∧
    (∀ (q : ℚ) (traitNames : Option (List String)) (index : ℕ),
      ∃ intPart frac,
        formatGeneValue true (some q) traitNames index =
          resolveTraitName traitNames index ++ ": " ++ intPart ++ "." ++ frac ∧
        frac.length = 3 ∧ ∀ c ∈ frac.data, c.isDigit = true) ∧
    formatGenome true [some 0.333333] (some ["Beak"]) = "Avg genome: Beak: 0.333" := by
  refine ⟨fun traitNames index => rfl, fun q traitNames index => ?_, ?_⟩
  · refine ⟨(if q < 0 then "-" else "") ++
      toString ((⌊|q| * 1000 + 1 / 2⌋).toNat / 1000), pad3 ((⌊|q| * 1000 + 1 / 2⌋).toNat % 1000),
      ?_, pad3_length _, pad3_digits _⟩
    simp [formatGeneValue, toFixed3, String.append_assoc]
  · have habs : |(0.333333 : ℚ)| = 0.333333 := abs_of_nonneg (by norm_num)
    have hfloor : ⌊|(0.333333 : ℚ)| * 1000 + 1 / 2⌋ = 333 := by
      rw [habs]; norm_num [Int.floor_eq_iff]
    have hneg : ¬ ((0.333333 : ℚ) < 0) := by norm_num
    simp only [formatGenome, List.isEmpty_cons, List.mapIdx_cons, List.mapIdx_nil,
      formatGeneValue, toFixed3, hfloor, hneg, if_false]
    decide

end ClaimC6C7C8

/-- C8: applying an organism delta to a sprite updates the row and col
attributes only when numerically present (absence leaves them unchanged),
while each transient flag (caughtPrey, cycleStep, canMove) is set when
present in the delta and removed from the sprite when absent. -/
theorem sprite_delta_positions_and_flags (d : OrganismDelta) (s : SpriteState) :
    (∀ r, d.row = some r → (updateSpriteData d s).row = some r) ∧
    (d.row = none → (updateSpriteData d s).row = s.row) ∧
    (∀ c, d.col = some c → (updateSpriteData d s).col = some c) ∧
    (d.col = none → (updateSpriteData d s).col = s.col) ∧
    (updateSpriteData d s).caughtPrey = d.caughtPrey ∧
    (updateSpriteData d s).cycleStep = d.cycleStep ∧
    (updateSpriteData d s).canMove = d.canMove := by
  refine ⟨?_, ?_, ?_, ?_, rfl, rfl, rfl⟩
  · intro r h; simp [updateSpriteData, h]
  · intro h; simp [updateSpriteData, h]
  · intro c h; simp [updateSpriteData, h]
  · intro h; simp [updateSpriteData, h]

/-- Closed witness for C8 at a concrete delta and sprite. -/
theorem sprite_delta_positions_and_flags_witness :
    (updateSpriteData { id := "a", row := some 2, caughtPrey := some true }
        { row := some 1, col := some 4, canMove := some false }).row = some 2 ∧
    (updateSpriteData { id := "a", row := some 2, caughtPrey := some true }
        { row := some 1, col := some 4, canMove := some false }).col = some 4 ∧
    (updateSpriteData { id := "a", row := some 2, caughtPrey := some true }
        { row := some 1, col := some 4, canMove := some false }).canMove = none := by
  have h := sprite_delta_positions_and_flags
    { id := "a", row := some 2, caughtPrey := some true }
    { row := some 1, col := some 4, canMove := some false }
  exact ⟨h.1 2 rfl, h.2.2.2.1 rfl, h.2.2.2.2.2.2⟩

end Phylogen
